import Mathlib

/-!
# Verification of the companion registry layer

Shallow embedding of the `companion` repository's persistence layer:
the `EnvironmentStore` (env-manager) with its slug algorithm, and the
`WorktreeTracker`, together with the `playNotificationSound` helper.
The store and tracker implementations are not present in the source
tree (only their test suites are), so their operations are modelled
from the specification; `playNotificationSound` is embedded from
`src/web/src/utils/notification-sound.ts`.
-/

namespace Companion

/-! ## The slug algorithm -/

/-- Drop the longest suffix of `l` whose characters all satisfy `p`. -/
def dropWhileEnd (p : Char → Bool) (l : List Char) : List Char :=
  (l.reverse.dropWhile p).reverse

/-- Modelled from the spec: step 1 of the slug algorithm, "trim
leading/trailing whitespace from the name". -/
def trimChars (l : List Char) : List Char :=
  dropWhileEnd Char.isWhitespace (l.dropWhile Char.isWhitespace)

/-- String version of `trimChars`; also used by `createEnv` to store the
trimmed display name. -/
def trimStr (s : String) : String :=
  String.mk (trimChars s.data)

/-- A character that is not an ASCII letter or digit becomes a hyphen;
ASCII letters and digits are kept. -/
def dashify (c : Char) : Char :=
  if c.isAlphanum then c else '-'

/-- Collapse every run of consecutive hyphens into a single hyphen. -/
def squeezeDashes : List Char → List Char
  | [] => []
  | [c] => [c]
  | c :: d :: rest =>
    if c == '-' && d == '-' then squeezeDashes (d :: rest)
    else c :: squeezeDashes (d :: rest)

/-- Modelled from the spec: step 4 of the slug algorithm, "strip any
leading or trailing hyphen(s)". -/
def stripDashes (l : List Char) : List Char :=
  dropWhileEnd (fun c => c == '-') (l.dropWhile (fun c => c == '-'))

/-- Modelled from the spec (the env-manager implementation is not in the
source tree): the slug algorithm, reproduced exactly.
1. Trim leading/trailing whitespace from the name.
2. Lowercase the entire string.
3. Replace every maximal run of characters that are not ASCII letters or
   digits with a single hyphen (`dashify` then `squeezeDashes`).
4. Strip any leading or trailing hyphen(s) left after step 3. -/
def slugify (name : String) : String :=
  let step1 := trimChars name.data
  let step2 := step1.map Char.toLower
  let step3 := squeezeDashes (step2.map dashify)
  String.mk (stripDashes step3)

/-! ## The environment store (env-manager)

Modelled from the spec: one JSON file per profile inside a dedicated
subdirectory, the file name derived from the profile's slug.  A file
whose content fails to parse as JSON is represented with `content = none`
(`StorageCorruption` is recovered locally by treating the file as
absent). -/

/-- An environment-variable profile, exactly the persisted shape
`{ name, slug, variables, createdAt, updatedAt }`. -/
structure EnvProfile where
  name : String
  slug : String
  «variables» : List (String × String)
  createdAt : Nat
  updatedAt : Nat
deriving DecidableEq, Repr

/-- One file in the `envs/` directory: its base name (the `<slug>` of
`<slug>.json`) and its parsed content, `none` when the file does not
parse as valid JSON. -/
structure EnvFile where
  fname : String
  content : Option EnvProfile
deriving DecidableEq, Repr

/-- The `envs/` directory: the sequence of its files. -/
abbrev EnvState := List EnvFile

/-- Whether a profile file with the given slug-derived name exists. -/
def hasFile (s : EnvState) (slug : String) : Bool :=
  s.any (fun f => f.fname == slug)

/-- Modelled from the spec: `getEnv(slug)` reads the file named by the
exact slug and returns its profile, or the not-found sentinel; a corrupt
file is treated as absent. -/
def getEnv (s : EnvState) (slug : String) : Option EnvProfile :=
  (s.find? (fun f => f.fname == slug)).bind (fun f => f.content)

/-- The collision error message, naming the offending slug. -/
def collisionMsg (slug : String) : String :=
  "An environment with a similar name already exists (\"" ++ slug ++ "\")"

/-- Modelled from the spec: `createEnv(name, variables = {})`.
Fails when the trimmed name is empty, when it contains no alphanumeric
character, or when a profile file with the computed slug already exists;
otherwise stores the trimmed name, the slug, the given variables and
`createdAt = updatedAt = now`, writes the file and returns the profile. -/
def createEnv (s : EnvState) (now : Nat) (name : String)
    (vars : List (String × String)) : Except String (EnvProfile × EnvState) :=
  let trimmed := trimStr name
  if trimmed = "" then
    Except.error "Environment name is required"
  else if trimmed.data.all (fun c => !c.isAlphanum) then
    Except.error "Environment name must contain alphanumeric characters"
  else
    let slug := slugify name
    if hasFile s slug then
      Except.error (collisionMsg slug)
    else
      let p : EnvProfile := ⟨trimmed, slug, vars, now, now⟩
      Except.ok (p, s ++ [⟨slug, some p⟩])

/-- Remove the file with the given base name from the directory. -/
def removeFile (s : EnvState) (slug : String) : EnvState :=
  s.filter (fun f => f.fname != slug)

/-- Write a profile file with the given base name (appended; any old
file of that name is expected to have been removed first). -/
def writeFile (s : EnvState) (slug : String) (p : EnvProfile) : EnvState :=
  s ++ [⟨slug, some p⟩]

/-- Modelled from the spec: `updateEnv(slug, patch)`. Returns the
not-found sentinel (`Except.ok none`) when the slug does not resolve to
an existing profile. When a new name is supplied, recomputes the slug; a
new slug that differs from the old one and is already held by a different
existing profile raises the collision error naming the new slug;
otherwise the old file is removed and the new file written. Omitted
patch fields keep their prior values; `createdAt` is never modified and
`updatedAt` is advanced to the current time. -/
def updateEnv (s : EnvState) (now : Nat) (slug : String)
    (newName : Option String) (newVars : Option (List (String × String))) :
    Except String (Option (EnvProfile × EnvState)) :=
  match getEnv s slug with
  | none => Except.ok none
  | some p =>
    let newSlug := match newName with
      | none => p.slug
      | some n => slugify n
    if newSlug ≠ p.slug ∧ hasFile s newSlug then
      Except.error (collisionMsg newSlug)
    else
      let p2 : EnvProfile :=
        ⟨(newName.map trimStr).getD p.name, newSlug,
          newVars.getD p.variables, p.createdAt, now⟩
      Except.ok (some (p2, writeFile (removeFile s p.slug) newSlug p2))

/-- Modelled from the spec: `deleteEnv(slug)` removes the profile's file
if present and returns true; returns false if no such profile existed. -/
def deleteEnv (s : EnvState) (slug : String) : Bool × EnvState :=
  if hasFile s slug then (true, removeFile s slug)
  else (false, s)

/-- Modelled from the spec: `listEnvs()` parses every profile file,
silently skipping files that fail to parse as valid JSON, and returns
the profiles sorted by `name` in ascending order. -/
def listEnvs (s : EnvState) : List EnvProfile :=
  List.insertionSort (fun a b => a.name ≤ b.name)
    (s.filterMap (fun f => f.content))

/-! ## The worktree tracker

Modelled from the spec: a single JSON file holding an ordered sequence
of `WorktreeMapping` records, loaded fully into memory at construction
and rewritten in full after every mutation. -/

/-- One session→worktree mapping record. -/
structure WorktreeMapping where
  sessionId : String
  repoRoot : String
  branch : String
  worktreePath : String
  createdAt : Nat
deriving DecidableEq, Repr

/-- The possible contents of the `worktrees.json` file. -/
inductive DiskFile where
  | absent
  | corrupt
  | nonArray
  | array (ms : List WorktreeMapping)
deriving DecidableEq, Repr

/-- The tracker: its in-memory mapping sequence and the current content
of the backing file. -/
structure TrackerState where
  mappings : List WorktreeMapping
  disk : DiskFile
deriving DecidableEq, Repr

/-- Modelled from the spec: construction reads the file if present;
if absent, the tracker starts with an empty sequence; invalid JSON or a
non-array payload also yields an empty sequence rather than a failure.
Construction does not write, so the file content is left as found. -/
def loadTracker : DiskFile → TrackerState
  | DiskFile.absent => ⟨[], DiskFile.absent⟩
  | DiskFile.corrupt => ⟨[], DiskFile.corrupt⟩
  | DiskFile.nonArray => ⟨[], DiskFile.nonArray⟩
  | DiskFile.array ms => ⟨ms, DiskFile.array ms⟩

/-- Modelled from the spec: `addMapping(mapping)` removes any mapping
with the same `sessionId`, appends the new one, and persists the full
sequence. -/
def addMapping (s : TrackerState) (m : WorktreeMapping) : TrackerState :=
  let ms := s.mappings.filter (fun x => x.sessionId != m.sessionId) ++ [m]
  ⟨ms, DiskFile.array ms⟩

/-- Modelled from the spec: `removeBySession(sessionId)` removes and
returns the mapping with that id, persisting afterward, or returns the
not-found sentinel leaving the state untouched. -/
def removeBySession (s : TrackerState) (sid : String) :
    Option WorktreeMapping × TrackerState :=
  match s.mappings.find? (fun x => x.sessionId == sid) with
  | none => (none, s)
  | some m =>
    let ms := s.mappings.filter (fun x => x.sessionId != sid)
    (some m, ⟨ms, DiskFile.array ms⟩)

/-- Modelled from the spec: `getBySession(sessionId)` returns the
mapping or the not-found sentinel, from memory. -/
def getBySession (s : TrackerState) (sid : String) : Option WorktreeMapping :=
  s.mappings.find? (fun x => x.sessionId == sid)

/-- Modelled from the spec: all mappings whose `worktreePath` equals the
argument, in storage order. -/
def getSessionsForWorktree (s : TrackerState) (p : String) :
    List WorktreeMapping :=
  s.mappings.filter (fun x => x.worktreePath == p)

/-- Modelled from the spec: all mappings whose `repoRoot` equals the
argument, in storage order. -/
def getSessionsForRepo (s : TrackerState) (r : String) :
    List WorktreeMapping :=
  s.mappings.filter (fun x => x.repoRoot == r)

/-- Modelled from the spec: `isWorktreeInUse(worktreePath,
excludeSessionId?)` is true iff at least one mapping has that
`worktreePath` and, when `excludeSessionId` is given, a different
`sessionId`. -/
def isWorktreeInUse (s : TrackerState) (p : String) (ex : Option String) :
    Bool :=
  s.mappings.any (fun x =>
    x.worktreePath == p &&
      match ex with
      | none => true
      | some e => x.sessionId != e)

/-! ## The notification chime

Embedded from `src/web/src/utils/notification-sound.ts`: the body of
`playNotificationSound` is a fixed sequence of Web Audio API calls
inside a `try` block whose `catch` swallows every exception.  The
environment is an oracle saying which primitive call throws. -/

/-- The browser environment seen by `playNotificationSound`: whether the
`AudioContext` can be obtained at all, the context's `state` string, and
for each subsequent primitive call (numbered in source order) whether it
throws. -/
structure AudioEnv where
  contextAvailable : Bool
  ctxState : String
  callThrows : Nat → Bool

/-- One Web Audio primitive call: throws or returns according to the
environment oracle. -/
def audioCall (env : AudioEnv) (n : Nat) : Except Unit Unit :=
  if env.callThrows n then Except.error () else Except.ok ()

/-- The body of the `try` block of `playNotificationSound`, call for
call in source order: obtain the context, resume it when suspended, then
build, connect and schedule the two oscillator/gain pairs. -/
def notificationBody (env : AudioEnv) : Except Unit Unit := do
  -- const ctx = getAudioContext()
  if env.contextAvailable then pure () else throw ()
  -- if (ctx.state === "suspended") ctx.resume()
  if env.ctxState = "suspended" then audioCall env 0 else pure ()
  audioCall env 1   -- ctx.currentTime
  audioCall env 2   -- ctx.createOscillator()          (osc1)
  audioCall env 3   -- ctx.createGain()                (gain1)
  audioCall env 4   -- osc1.frequency.setValueAtTime
  audioCall env 5   -- gain1.gain.setValueAtTime
  audioCall env 6   -- gain1.gain.exponentialRampToValueAtTime
  audioCall env 7   -- osc1.connect(gain1)
  audioCall env 8   -- gain1.connect(ctx.destination)
  audioCall env 9   -- osc1.start
  audioCall env 10  -- osc1.stop
  audioCall env 11  -- ctx.createOscillator()          (osc2)
  audioCall env 12  -- ctx.createGain()                (gain2)
  audioCall env 13  -- osc2.frequency.setValueAtTime
  audioCall env 14  -- gain2.gain.setValueAtTime (0.001)
  audioCall env 15  -- gain2.gain.setValueAtTime (0.3)
  audioCall env 16  -- gain2.gain.exponentialRampToValueAtTime
  audioCall env 17  -- osc2.connect(gain2)
  audioCall env 18  -- gain2.connect(ctx.destination)
  audioCall env 19  -- osc2.start
  audioCall env 20  -- osc2.stop

/-- Embedded from the source: `playNotificationSound` runs the body
inside `try { ... } catch { /* silently fail */ }`, so an exception in
the body produces a normal return. `Except.ok ()` models returning
normally; a propagated exception would be `Except.error ()`. -/
def playNotificationSound (env : AudioEnv) : Except Unit Unit :=
  match notificationBody env with
  | Except.ok _ => Except.ok ()
  | Except.error _ => Except.ok ()

/-! ## Theorems -/

/-- C1: the slug is computed by trimming, lowercasing, collapsing every
maximal run of non-alphanumeric characters to a single hyphen and
stripping boundary hyphens (which is exactly how `slugify` is defined);
in particular `slugify "My App" = "my-app"`,
`slugify "Hello World! @#$%" = "hello-world"`,
`slugify "a   ---  b" = "a-b"` and `slugify " -cool env- " = "cool-env"`. -/
theorem slugify_examples :
    slugify "My App" = "my-app" ∧
    slugify "Hello World! @#$%" = "hello-world" ∧
    slugify "a   ---  b" = "a-b" ∧
    slugify " -cool env- " = "cool-env" := by
  refine ⟨?_, ?_, ?_, ?_⟩ <;> decide

/-- C10: `playNotificationSound` returns normally for every environment
state: whatever primitive Web Audio call throws, the exception is caught
internally and never propagates. -/
theorem playNotificationSound_never_throws (env : AudioEnv) :
    playNotificationSound env = Except.ok () := by
  unfold playNotificationSound
  cases notificationBody env <;> rfl

/-- C6: `isWorktreeInUse p` is true iff some stored mapping has
`worktreePath = p`, and `isWorktreeInUse p (some e)` is true iff some
stored mapping has `worktreePath = p` and a `sessionId` different
from `e`. -/
theorem isWorktreeInUse_iff (s : TrackerState) (p : String) :
    (isWorktreeInUse s p none = true ↔
      ∃ x ∈ s.mappings, x.worktreePath = p) ∧
    (∀ e, isWorktreeInUse s p (some e) = true ↔
      ∃ x ∈ s.mappings, x.worktreePath = p ∧ x.sessionId ≠ e) := by
  constructor
  · simp [isWorktreeInUse, List.any_eq_true]
  · intro e
    simp [isWorktreeInUse, List.any_eq_true]

/-- C8: `listEnvs` returns exactly the profiles of the files that parse
(a permutation of the valid files' contents, corrupt files silently
omitted), sorted by `name` in ascending order. -/
theorem listEnvs_sorted_perm (s : EnvState) :
    (listEnvs s).Perm (s.filterMap (fun f => f.content)) ∧
    List.Sorted (fun a b : EnvProfile => a.name ≤ b.name) (listEnvs s) := by
  constructor
  · exact List.perm_insertionSort _ _
  · haveI ht : IsTotal EnvProfile (fun a b => a.name ≤ b.name) :=
      ⟨fun a b => le_total a.name b.name⟩
    haveI htr : IsTrans EnvProfile (fun a b => a.name ≤ b.name) :=
      ⟨fun a b c h1 h2 => le_trans h1 h2⟩
    exact List.sorted_insertionSort _ _

/-- C9: a tracker loaded from a corrupt (or non-array) file starts with
an empty mapping sequence, exactly like one loaded with no file at all,
and any two tracker states with equal mapping sequences are
behaviorally indistinguishable: every query returns the same result and
every mutation yields states with equal mapping sequences. -/
theorem loadTracker_corrupt_equiv :
    (loadTracker DiskFile.corrupt).mappings = [] ∧
    (loadTracker DiskFile.nonArray).mappings = [] ∧
    (loadTracker DiskFile.absent).mappings = [] ∧
    (∀ s t : TrackerState, s.mappings = t.mappings →
      (∀ sid, getBySession s sid = getBySession t sid) ∧
      (∀ p, getSessionsForWorktree s p = getSessionsForWorktree t p) ∧
      (∀ r, getSessionsForRepo s r = getSessionsForRepo t r) ∧
      (∀ p ex, isWorktreeInUse s p ex = isWorktreeInUse t p ex) ∧
      (∀ m, addMapping s m = addMapping t m) ∧
      (∀ sid, (removeBySession s sid).1 = (removeBySession t sid).1 ∧
        ((removeBySession s sid).2).mappings =
          ((removeBySession t sid).2).mappings)) := by
  refine ⟨rfl, rfl, rfl, ?_⟩
  intro s t h
  refine ⟨?_, ?_, ?_, ?_, ?_, ?_⟩
  · intro sid; simp [getBySession, h]
  · intro p; simp [getSessionsForWorktree, h]
  · intro r; simp [getSessionsForRepo, h]
  · intro p ex; simp [isWorktreeInUse, h]
  · intro m; simp [addMapping, h]
  · intro sid
    unfold removeBySession
    rw [h]
    cases t.mappings.find? (fun x => x.sessionId == sid) <;> simp [h]

/-- Witness for C9: the corrupt-file tracker and the no-file tracker
answer a concrete query identically. -/
theorem loadTracker_corrupt_equiv_witness :
    getBySession (loadTracker DiskFile.corrupt) "session-1" =
      getBySession (loadTracker DiskFile.absent) "session-1" :=
  (loadTracker_corrupt_equiv.2.2.2 (loadTracker DiskFile.corrupt)
    (loadTracker DiskFile.absent) rfl).1 "session-1"

/-- Filtering for a session id right after filtering it away yields
nothing. -/
lemma filter_session_after_remove (l : List WorktreeMapping) (sid : String) :
    (l.filter (fun x => x.sessionId != sid)).filter
      (fun x => x.sessionId == sid) = [] := by
  induction l with
  | nil => rfl
  | cons a l ih =>
    by_cases h : a.sessionId = sid <;> simp [List.filter_cons, h, ih]

/-- The session-uniqueness relation on mapping sequences. -/
def uniqueSessions (l : List WorktreeMapping) : Prop :=
  l.Pairwise (fun a b => a.sessionId ≠ b.sessionId)

/-- C5: `addMapping` leaves exactly one mapping for the added
`sessionId`, holding the later call's values; the persisted file equals
the in-memory sequence (hence has the same number of records); and both
mutations preserve the at-most-one-mapping-per-session invariant, so it
holds after every sequence of operations from an initially unique
state. -/
theorem addMapping_replaces (s : TrackerState) (m : WorktreeMapping)
    (hu : uniqueSessions s.mappings) :
    ((addMapping s m).mappings.filter
      (fun x => x.sessionId == m.sessionId) = [m]) ∧
    (addMapping s m).disk = DiskFile.array (addMapping s m).mappings ∧
    uniqueSessions (addMapping s m).mappings ∧
    (∀ sid, uniqueSessions ((removeBySession s sid).2).mappings) := by
  refine ⟨?_, rfl, ?_, ?_⟩
  · simp [addMapping, List.filter_append, filter_session_after_remove]
  · unfold addMapping uniqueSessions
    simp only [List.pairwise_append]
    refine ⟨hu.sublist (List.filter_sublist _), List.pairwise_singleton _ _, ?_⟩
    intro a ha b hb
    rw [List.mem_singleton] at hb
    subst hb
    have := (List.mem_filter.mp ha).2
    simpa using this
  · intro sid
    unfold removeBySession
    cases s.mappings.find? (fun x => x.sessionId == sid) with
    | none => exact hu
    | some m0 => exact hu.sublist (List.filter_sublist _)

/-- Witness for C5: a concrete double `addMapping` with the same session
id leaves exactly the second mapping. -/
theorem addMapping_replaces_witness :
    ((addMapping (addMapping (loadTracker DiskFile.absent)
        ⟨"s1", "/repo", "feat-1", "/worktrees/feat-1", 0⟩)
        ⟨"s1", "/repo", "feat-2", "/worktrees/feat-2", 1⟩).mappings.filter
      (fun x => x.sessionId == "s1") =
      [⟨"s1", "/repo", "feat-2", "/worktrees/feat-2", 1⟩]) :=
  (addMapping_replaces
    (addMapping (loadTracker DiskFile.absent)
      ⟨"s1", "/repo", "feat-1", "/worktrees/feat-1", 0⟩)
    ⟨"s1", "/repo", "feat-2", "/worktrees/feat-2", 1⟩
    (by simp [uniqueSessions, addMapping, loadTracker])).1

/-- C7: acting on an absent key never throws and yields a sentinel:
`getEnv` and `updateEnv` on an unknown slug return the none sentinel,
`deleteEnv` on an unknown slug returns false (and true on a known one,
after which `getEnv` on that slug returns none), and `getBySession` and
`removeBySession` on an unknown session id return none. -/
theorem absent_key_sentinels :
    (∀ (s : EnvState) (slug : String), hasFile s slug = false →
      getEnv s slug = none ∧
      (∀ now newName newVars,
        updateEnv s now slug newName newVars = Except.ok none) ∧
      deleteEnv s slug = (false, s)) ∧
    (∀ (s : EnvState) (slug : String), hasFile s slug = true →
      (deleteEnv s slug).1 = true ∧
      getEnv (deleteEnv s slug).2 slug = none) ∧
    (∀ (t : TrackerState) (sid : String),
      (∀ x ∈ t.mappings, x.sessionId ≠ sid) →
      getBySession t sid = none ∧ removeBySession t sid = (none, t)) := by
  refine ⟨?_, ?_, ?_⟩
  · intro s slug h
    have hf : s.find? (fun f => f.fname == slug) = none := by
      rw [List.find?_eq_none]
      intro f hfm
      have := (List.any_eq_false).mp h f hfm
      simpa using this
    refine ⟨?_, ?_, ?_⟩
    · simp [getEnv, hf]
    · intro now newName newVars
      simp [updateEnv, getEnv, hf]
    · simp [deleteEnv, h]
  · intro s slug h
    refine ⟨by simp [deleteEnv, h], ?_⟩
    simp only [deleteEnv, h, if_true]
    have hf : (removeFile s slug).find? (fun f => f.fname == slug) = none := by
      rw [List.find?_eq_none]
      intro f hfm
      have := (List.mem_filter.mp hfm).2
      simpa using this
    simp [getEnv, hf]
  · intro t sid h
    have hf : t.mappings.find? (fun x => x.sessionId == sid) = none := by
      rw [List.find?_eq_none]
      intro x hx
      simpa using h x hx
    refine ⟨by simp [getBySession, hf], ?_⟩
    unfold removeBySession
    rw [hf]

/-- Witness for C7: concrete sentinel results on a one-profile store and
a one-mapping tracker. -/
theorem absent_key_sentinels_witness :
    (getEnv [⟨"my-app", none⟩] "ghost" = none ∧
      (∀ now newName newVars,
        updateEnv [⟨"my-app", none⟩] now "ghost" newName newVars =
          Except.ok none) ∧
      deleteEnv [⟨"my-app", none⟩] "ghost" = (false, [⟨"my-app", none⟩])) ∧
    ((deleteEnv [⟨"my-app", none⟩] "my-app").1 = true ∧
      getEnv (deleteEnv [⟨"my-app", none⟩] "my-app").2 "my-app" = none) ∧
    (getBySession (loadTracker DiskFile.absent) "nonexistent" = none ∧
      removeBySession (loadTracker DiskFile.absent) "nonexistent" =
        (none, loadTracker DiskFile.absent)) :=
  ⟨absent_key_sentinels.1 [⟨"my-app", none⟩] "ghost" (by decide),
   absent_key_sentinels.2.1 [⟨"my-app", none⟩] "my-app" (by decide),
   absent_key_sentinels.2.2 (loadTracker DiskFile.absent) "nonexistent"
     (by intro x hx; simp [loadTracker] at hx)⟩

/-- A slug with no file in the directory is not found by `find?`. -/
lemma find?_none_of_hasFile_false (s : EnvState) (slug : String)
    (h : hasFile s slug = false) :
    s.find? (fun f => f.fname == slug) = none := by
  rw [List.find?_eq_none]
  intro f hf
  have := List.any_eq_false.mp h f hf
  simpa using this

/-- C2: `createEnv` fails exactly when the trimmed name is empty
("Environment name is required"), when the trimmed name is non-empty but
has no alphanumeric character ("Environment name must contain
alphanumeric characters"), or when a profile with the computed slug
already exists (the collision message naming that slug); in every other
case it succeeds.  The three failure conditions are checked in this
order, so together the four implications cover every input. -/
theorem createEnv_fails_iff (s : EnvState) (now : Nat) (name : String)
    (vars : List (String × String)) :
    (trimStr name = "" →
      createEnv s now name vars =
        Except.error "Environment name is required") ∧
    (trimStr name ≠ "" →
      (trimStr name).data.all (fun c => !c.isAlphanum) = true →
      createEnv s now name vars =
        Except.error "Environment name must contain alphanumeric characters") ∧
    (trimStr name ≠ "" →
      (trimStr name).data.all (fun c => !c.isAlphanum) = false →
      hasFile s (slugify name) = true →
      createEnv s now name vars =
        Except.error (collisionMsg (slugify name))) ∧
    (trimStr name ≠ "" →
      (trimStr name).data.all (fun c => !c.isAlphanum) = false →
      hasFile s (slugify name) = false →
      ∃ p s2, createEnv s now name vars = Except.ok (p, s2)) := by
  refine ⟨?_, ?_, ?_, ?_⟩
  · intro h1
    simp [createEnv, h1]
  · intro h1 h2
    simp [createEnv, h1, h2]
  · intro h1 h2 h3
    simp [createEnv, h1, h2, h3]
  · intro h1 h2 h3
    refine ⟨⟨trimStr name, slugify name, vars, now, now⟩,
      s ++ [⟨slugify name,
        some ⟨trimStr name, slugify name, vars, now, now⟩⟩], ?_⟩
    simp [createEnv, h1, h2, h3]

/-- Witness for C2: the three concrete failures and one concrete
success. -/
theorem createEnv_fails_iff_witness :
    createEnv [] 0 "   " [] =
      Except.error "Environment name is required" ∧
    createEnv [] 0 "@#$%^&" [] =
      Except.error "Environment name must contain alphanumeric characters" ∧
    createEnv [⟨"my-app", none⟩] 0 "My App" [] =
      Except.error (collisionMsg (slugify "My App")) ∧
    ∃ p s2, createEnv [] 0 "My App" [] = Except.ok (p, s2) :=
  ⟨(createEnv_fails_iff [] 0 "   " []).1 (by decide),
   (createEnv_fails_iff [] 0 "@#$%^&" []).2.1 (by decide) (by decide),
   (createEnv_fails_iff [⟨"my-app", none⟩] 0 "My App" []).2.2.1
     (by decide) (by decide) (by decide),
   (createEnv_fails_iff [] 0 "My App" []).2.2.2
     (by decide) (by decide) (by decide)⟩

/-- C3: a successful `createEnv` returns a profile whose name is the
trimmed input (case preserved), whose slug is the computed slug, whose
variables are the given map, and whose `createdAt` equals `updatedAt`;
and `getEnv` on that slug in the resulting state returns that same
profile. -/
theorem createEnv_success (s : EnvState) (now : Nat) (name : String)
    (vars : List (String × String)) (p : EnvProfile) (s2 : EnvState)
    (h : createEnv s now name vars = Except.ok (p, s2)) :
    p.name = trimStr name ∧ p.slug = slugify name ∧ p.variables = vars ∧
    p.createdAt = p.updatedAt ∧ getEnv s2 p.slug = some p := by
  simp only [createEnv] at h
  split at h
  · simp at h
  · split at h
    · simp at h
    · split at h
      · simp at h
      · rename_i hcoll
        rw [Except.ok.injEq, Prod.mk.injEq] at h
        obtain ⟨hp, hs⟩ := h
        subst hp
        subst hs
        refine ⟨rfl, rfl, rfl, rfl, ?_⟩
        have hfalse : hasFile s (slugify name) = false :=
          Bool.not_eq_true _ ▸ Bool.of_not_eq_true hcoll
        simp [getEnv, List.find?_append,
          find?_none_of_hasFile_false s _ hfalse]

/-- Witness for C3: a concrete successful creation and its round-trip
through `getEnv`. -/
theorem createEnv_success_witness :
    (⟨"My App", "my-app", [("PORT", "3000")], 7, 7⟩ : EnvProfile).name =
        trimStr "  My App  " ∧
    (⟨"My App", "my-app", [("PORT", "3000")], 7, 7⟩ : EnvProfile).slug =
        slugify "  My App  " ∧
    (⟨"My App", "my-app", [("PORT", "3000")], 7, 7⟩ : EnvProfile).variables =
        [("PORT", "3000")] ∧
    (⟨"My App", "my-app", [("PORT", "3000")], 7, 7⟩ : EnvProfile).createdAt =
        (⟨"My App", "my-app", [("PORT", "3000")], 7, 7⟩ : EnvProfile).updatedAt ∧
    getEnv [⟨"my-app",
        some ⟨"My App", "my-app", [("PORT", "3000")], 7, 7⟩⟩]
      (⟨"My App", "my-app", [("PORT", "3000")], 7, 7⟩ : EnvProfile).slug =
      some ⟨"My App", "my-app", [("PORT", "3000")], 7, 7⟩ :=
  createEnv_success [] 7 "  My App  " [("PORT", "3000")]
    ⟨"My App", "my-app", [("PORT", "3000")], 7, 7⟩
    [⟨"my-app", some ⟨"My App", "my-app", [("PORT", "3000")], 7, 7⟩⟩]
    (by rfl)

/-- Removing a file by name leaves no file of that name. -/
lemma hasFile_removeFile (s : EnvState) (slug : String) :
    hasFile (removeFile s slug) slug = false := by
  simp only [hasFile, removeFile, List.any_eq_false]
  intro f hf
  have := (List.mem_filter.mp hf).2
  simpa using this

/-- Filtering cannot introduce a file name that was absent. -/
lemma hasFile_filter_false (s : EnvState) (q : EnvFile → Bool) (slug : String)
    (h : hasFile s slug = false) : hasFile (s.filter q) slug = false := by
  simp only [hasFile, List.any_eq_false] at h ⊢
  intro f hf
  exact h f (List.mem_filter.mp hf).1

/-- C4: for an existing profile, `updateEnv` with a new name whose slug
differs from the old one fails with the collision error naming the new
slug when another profile already holds that slug, and otherwise removes
the old file, writes the new one, and returns the profile with the
updated name and slug; and every successful update keeps omitted patch
fields at their prior values, leaves `createdAt` unchanged, and sets
`updatedAt` to the current time, hence strictly later than before
whenever the clock has advanced. -/
theorem updateEnv_spec (s : EnvState) (now : Nat) (slug : String)
    (newName : Option String) (newVars : Option (List (String × String)))
    (p : EnvProfile) (h : getEnv s slug = some p) :
    (∀ n, newName = some n → slugify n ≠ p.slug →
      (hasFile s (slugify n) = true →
        updateEnv s now slug newName newVars =
          Except.error (collisionMsg (slugify n))) ∧
      (hasFile s (slugify n) = false →
        ∃ p2 s2, updateEnv s now slug newName newVars =
            Except.ok (some (p2, s2)) ∧
          p2.name = trimStr n ∧ p2.slug = slugify n ∧
          hasFile s2 p.slug = false ∧
          getEnv s2 (slugify n) = some p2)) ∧
    (∀ p2 s2, updateEnv s now slug newName newVars =
        Except.ok (some (p2, s2)) →
      (newName = none → p2.name = p.name ∧ p2.slug = p.slug) ∧
      (newVars = none → p2.variables = p.variables) ∧
      p2.createdAt = p.createdAt ∧ p2.updatedAt = now ∧
      (p.updatedAt < now → p.updatedAt < p2.updatedAt)) := by
  constructor
  · intro n hn hne
    subst hn
    constructor
    · intro h3
      simp only [updateEnv, h]
      rw [if_pos ⟨hne, h3⟩]
    · intro h3
      have hcond : ¬(slugify n ≠ p.slug ∧ hasFile s (slugify n) = true) := by
        intro hc
        rw [h3] at hc
        exact absurd hc.2 (by simp)
      refine ⟨⟨trimStr n, slugify n, newVars.getD p.variables,
          p.createdAt, now⟩,
        writeFile (removeFile s p.slug) (slugify n)
          ⟨trimStr n, slugify n, newVars.getD p.variables,
            p.createdAt, now⟩, ?_, rfl, rfl, ?_, ?_⟩
      · simp only [updateEnv, h]
        rw [if_neg hcond]
        rfl
      · have h1 := hasFile_removeFile s p.slug
        simp only [hasFile, writeFile] at h1 ⊢
        rw [List.any_append, h1]
        simpa using hne
      · have h4 : hasFile (removeFile s p.slug) (slugify n) = false :=
          hasFile_filter_false s _ (slugify n) h3
        simp [getEnv, writeFile, List.find?_append,
          find?_none_of_hasFile_false _ _ h4]
  · intro p2 s2 hok
    cases newName with
    | none =>
      simp only [updateEnv, h] at hok
      rw [if_neg (by simp)] at hok
      rw [Except.ok.injEq, Option.some.injEq, Prod.mk.injEq] at hok
      obtain ⟨hp2, hs2⟩ := hok
      subst hp2
      exact ⟨fun _ => ⟨rfl, rfl⟩, fun hv => by rw [hv]; rfl, rfl, rfl,
        fun hlt => hlt⟩
    | some n =>
      simp only [updateEnv, h] at hok
      split at hok
      · simp at hok
      · rw [Except.ok.injEq, Option.some.injEq, Prod.mk.injEq] at hok
        obtain ⟨hp2, hs2⟩ := hok
        subst hp2
        exact ⟨fun hnone => by simp at hnone, fun hv => by rw [hv]; rfl,
          rfl, rfl, fun hlt => hlt⟩

/-- Witness for C4: a concrete rename collision and a concrete
successful rename with its old file removed and new file readable. -/
theorem updateEnv_spec_witness :
    updateEnv [⟨"alpha", some ⟨"Alpha", "alpha", [], 1, 1⟩⟩,
        ⟨"beta", some ⟨"Beta", "beta", [], 1, 1⟩⟩] 5 "alpha"
        (some "Beta") none =
      Except.error (collisionMsg (slugify "Beta")) ∧
    ∃ p2 s2,
      updateEnv [⟨"alpha", some ⟨"Alpha", "alpha", [], 1, 1⟩⟩] 5 "alpha"
          (some "New Name") none = Except.ok (some (p2, s2)) ∧
        p2.name = trimStr "New Name" ∧ p2.slug = slugify "New Name" ∧
        hasFile s2 (⟨"Alpha", "alpha", [], 1, 1⟩ : EnvProfile).slug = false ∧
        getEnv s2 (slugify "New Name") = some p2 :=
  ⟨((updateEnv_spec
      [⟨"alpha", some ⟨"Alpha", "alpha", [], 1, 1⟩⟩,
        ⟨"beta", some ⟨"Beta", "beta", [], 1, 1⟩⟩] 5 "alpha"
      (some "Beta") none ⟨"Alpha", "alpha", [], 1, 1⟩ (by rfl)).1
      "Beta" rfl (by decide)).1 (by rfl),
   ((updateEnv_spec [⟨"alpha", some ⟨"Alpha", "alpha", [], 1, 1⟩⟩] 5 "alpha"
      (some "New Name") none ⟨"Alpha", "alpha", [], 1, 1⟩ (by rfl)).1
      "New Name" rfl (by decide)).2 (by rfl)⟩

end Companion
